import Mathlib

/-!
Shallow embedding of the gobank HTTP account service (api.go, storage.go)
and proofs about its authorization-gated resource-access path.

Modelling conventions:
- Go functions returning (T, error) become Except String T; a nil pointer
  inside a successful return is Option.none.
- The JWT wire format is represented symbolically: a token string is either
  malformed (it does not parse into three segments; the empty string from a
  missing x-jwt-token header is one such value) or well formed with a header
  algorithm, a decoded claim set, and the key it was signed with (none models
  a signature that verifies under no key). JSON numbers in claims are
  modelled as exact integers.
- The process-wide signing secret (os.Getenv in the source) is threaded as an
  explicit parameter.
- Writes to the http.ResponseWriter are modelled as a Response value; the Go
  runtime panics of the middleware (nil pointer dereference, failed type
  assertion) are a dedicated outcome constructor.
-/

/-- Modelled from the spec: the Account record of section 3 (the type
declaration file is not part of the provided sources). Identifier assigned
by the store on creation; account number generated at creation and used as
the authorization claim. -/
structure Account where
  ID : Int
  FirstName : String
  LastName : String
  Number : Int
  Balance : Int
  CreatedAt : Int
deriving Repr, DecidableEq

/-- Modelled from the spec: NewAccount constructs an account from the two
name fields; number, balance and timestamp are system-generated, so the
generated number and the timestamp are passed explicitly. The identifier is
not yet assigned (the store assigns it on creation). -/
def NewAccount (firstName lastName : String) (gen ts : Int) : Account :=
  Account.mk 0 firstName lastName gen 0 ts

/-- JOSE header algorithm of a token, as declared by the token itself. -/
inductive SigAlg where
  | HS256
  | HS384
  | HS512
  | RS256
  | RS384
  | RS512
  | ES256
  | ES384
  | ES512
  | PS256
  | EdDSA
  | algNone
deriving Repr, DecidableEq

/-- Membership in the HMAC family, mirroring the Go type switch on
jwt.SigningMethodHMAC in the key-resolution callback of validateJWT. -/
def SigAlg.isHMAC : SigAlg → Bool
  | .HS256 => true
  | .HS384 => true
  | .HS512 => true
  | _ => false

/-- Printable algorithm name, as it appears in the token header field alg. -/
def SigAlg.algName : SigAlg → String
  | .HS256 => "HS256"
  | .HS384 => "HS384"
  | .HS512 => "HS512"
  | .RS256 => "RS256"
  | .RS384 => "RS384"
  | .RS512 => "RS512"
  | .ES256 => "ES256"
  | .ES384 => "ES384"
  | .ES512 => "ES512"
  | .PS256 => "PS256"
  | .EdDSA => "EdDSA"
  | .algNone => "none"

/-- Decoded JSON claim value. The Go side decodes JSON numbers as float64;
they are modelled as exact integers here (all claim values this program
issues are small integers). A value of any other shape makes the
middleware type assertion to float64 fail. -/
inductive ClaimValue where
  | num (n : Int)
  | str (s : String)
  | nullVal
deriving Repr, DecidableEq

/-- Wire-level JWT presented in the x-jwt-token header, represented
symbolically. malformed covers every string that does not parse as a JWT,
including the empty string that http.Header.Get returns when the header is
absent. wellFormed records the declared header algorithm, the decoded claim
set, and the key the token was signed with (none when the signature
verifies under no key). -/
inductive TokenString where
  | malformed (raw : String)
  | wellFormed (alg : SigAlg) (claims : List (String × ClaimValue)) (signedWith : Option String)
deriving Repr, DecidableEq

/-- Header value of a request whose x-jwt-token header is absent or empty:
http.Header.Get yields the empty string, which does not parse as a JWT. -/
def emptyHeaderToken : TokenString := TokenString.malformed ""

/-- Parsed jwt.Token as produced by jwt.Parse: the decoded claim map and the
Valid flag (set when parsing and signature verification succeed). -/
structure Token where
  Claims : List (String × ClaimValue)
  Valid : Bool
deriving Repr, DecidableEq

/-- Key-resolution callback passed to jwt.Parse inside validateJWT
(api.go lines 194-200): accept only HMAC-family methods, otherwise fail
naming the unexpected algorithm. -/
def jwtKeyfunc (secret : String) (alg : SigAlg) : Except String String :=
  if alg.isHMAC then Except.ok secret
  else Except.error ("unexpected signing method: " ++ alg.algName)

/-- Embedding of validateJWT (api.go lines 191-201): parse the token string,
resolve the key via the callback, verify the signature with that key. A
malformed string, a non-HMAC algorithm, or a signature that does not verify
under the resolved key each yield an error; on success the token is Valid. -/
def validateJWT (secret : String) (ts : TokenString) : Except String Token :=
  match ts with
  | TokenString.malformed _ => Except.error ("token contains an invalid number of segments")
  | TokenString.wellFormed alg claims signedWith =>
    match jwtKeyfunc secret alg with
    | Except.error e => Except.error e
    | Except.ok key =>
      if signedWith = some key then Except.ok (Token.mk claims true)
      else Except.error ("signature is invalid")

/-- Embedding of createJWT (api.go lines 177-189): an HS256 token over the
claim map with expiresAt 15000 and accountNumber set to the account number,
signed with the process secret. SignedString cannot fail on a byte-slice
key, so no error case is modelled. -/
def createJWT (secret : String) (account : Account) : TokenString :=
  TokenString.wellFormed SigAlg.HS256
    (("expiresAt", ClaimValue.num 15000) :: ("accountNumber", ClaimValue.num account.Number) :: [])
    (some secret)

/-- Decoded request body, standing for the JSON bytes of r.Body. -/
inductive RequestBody where
  | createReq (firstName lastName : String)
  | transferReq (toAccount amount : Int)
  | badJSON (raw : String)
  | emptyBody
deriving Repr, DecidableEq

/-- Inbound HTTP request as the handlers see it: the verb, the id path
variable from mux.Vars, the x-jwt-token header value, and the body. -/
structure Request where
  method : String
  pathId : String
  xJwtToken : TokenString
  body : RequestBody
deriving Repr, DecidableEq

/-- JSON value written as a response body by WriteJSON. accountBody none is
the encoding of a nil *Account pointer (JSON null). -/
inductive RespBody where
  | accountBody (a : Option Account)
  | accountsBody (l : List Account)
  | apiError (e : String)
  | deletedBody (id : Int)
  | transferEcho (toAccount amount : Int)
deriving Repr, DecidableEq

/-- Response written to the http.ResponseWriter: status code, Content-Type
header, body value. -/
structure Response where
  status : Nat
  contentType : String
  body : RespBody
deriving Repr, DecidableEq

/-- Embedding of WriteJSON (api.go lines 136-140): set Content-Type to
application/json, write the status code, encode the value. -/
def WriteJSON (status : Nat) (v : RespBody) : Response :=
  Response.mk status ("application/json") v

/-- Embedding of permissionDenied (api.go lines 142-144): WriteJSON with
http.StatusOK and the uniform ApiError body. -/
def permissionDenied : Response :=
  WriteJSON 200 (RespBody.apiError ("permission denied"))

/-- Numeric value of a decimal digit character, or none. -/
def digitVal (c : Char) : Option Nat :=
  if 48 ≤ c.toNat ∧ c.toNat ≤ 57 then some (c.toNat - 48) else none

/-- Accumulate decimal digits; fails on the first non-digit character. -/
def parseNatAux : List Char → Nat → Option Nat
  | [], acc => some acc
  | c :: cs, acc =>
    match digitVal c with
    | some d => parseNatAux cs (acc * 10 + d)
    | none => none

/-- Embedding of strconv.Atoi restricted to its syntax: an optional sign
followed by at least one decimal digit; anything else is a syntax error. -/
def goAtoi (s : String) : Option Int :=
  match s.data with
  | [] => none
  | '+' :: rest => if rest = [] then none else Option.map Int.ofNat (parseNatAux rest 0)
  | '-' :: rest => if rest = [] then none else Option.map (fun n => -(Int.ofNat n)) (parseNatAux rest 0)
  | cs => Option.map Int.ofNat (parseNatAux cs 0)

/-- Embedding of getId (api.go lines 217-224): parse the id path variable,
failing with a message naming the offending value when it is not an
integer. -/
def getId (r : Request) : Except String Int :=
  match goAtoi r.pathId with
  | some id => Except.ok id
  | none => Except.error ("invalid id provided: " ++ r.pathId)

/-- Panic message of a nil *Account dereference in the middleware. -/
def nilDerefPanic : String :=
  "runtime error: invalid memory address or nil pointer dereference"

/-- Panic message of the failed type assertion of the accountNumber claim
to float64 in the middleware. -/
def typeAssertPanic : String :=
  "interface conversion: accountNumber claim is not float64"

/-- What one run of the access-control middleware does: short-circuit with
a denial response, invoke the wrapped handler (whose written response is
recorded), or panic in the unchecked final comparison. -/
inductive MWOutcome where
  | denied (resp : Response)
  | passed (resp : Response)
  | panicked (msg : String)
deriving Repr, DecidableEq

/-- Result of one middleware run together with whether the store lookup
GetAccountByID was reached on this request. -/
structure MWResult where
  outcome : MWOutcome
  storeQueried : Bool
deriving Repr, DecidableEq

/-- Embedding of withJWTAuth (api.go lines 146-175). Steps in source order:
validate the header token (failure or an invalid token denies before any
store access); parse the id path variable (failure denies); resolve the
account by id through the store (failure denies); then the unchecked final
comparison: dereferencing a nil account panics, a missing or non-numeric
accountNumber claim panics in the type assertion, a number mismatch denies,
and only an exact match invokes the wrapped handler. -/
def withJWTAuth (handlerFunc : Request → Response)
    (getAccountByID : Int → Except String (Option Account))
    (secret : String) (r : Request) : MWResult :=
  match validateJWT secret r.xJwtToken with
  | Except.error _ => MWResult.mk (MWOutcome.denied permissionDenied) false
  | Except.ok token =>
    if token.Valid = false then MWResult.mk (MWOutcome.denied permissionDenied) false
    else
      match getId r with
      | Except.error _ => MWResult.mk (MWOutcome.denied permissionDenied) false
      | Except.ok id =>
        match getAccountByID id with
        | Except.error _ => MWResult.mk (MWOutcome.denied permissionDenied) true
        | Except.ok acctOpt =>
          match acctOpt with
          | none => MWResult.mk (MWOutcome.panicked nilDerefPanic) true
          | some account =>
            match token.Claims.lookup ("accountNumber") with
            | some (ClaimValue.num n) =>
              if account.Number ≠ n then MWResult.mk (MWOutcome.denied permissionDenied) true
              else MWResult.mk (MWOutcome.passed (handlerFunc r)) true
            | _ => MWResult.mk (MWOutcome.panicked typeAssertPanic) true

namespace PostgresStorage

/-- Embedding of PostgresStorage.GetAccountByID (storage.go lines 74-76):
the reference implementation is a stub returning (nil, nil) for every id. -/
def GetAccountByID (_id : Int) : Except String (Option Account) :=
  Except.ok none

/-- Embedding of PostgresStorage.DeleteAccount (storage.go lines 70-72):
the reference implementation is a no-op stub returning nil for every id. -/
def DeleteAccount (_id : Int) : Except String Unit :=
  Except.ok ()

end PostgresStorage

/-- State of the account table owned by PostgresStorage (schema in
storage.go lines 40-52): the stored rows together with the serial
identifier counter the database assigns from. The state-passing methods
below embed the storage.go methods, including the two stubs, which ignore
this state exactly as the Go stubs ignore the database. -/
structure SpecStore where
  nextId : Int
  rows : List Account
deriving Repr, DecidableEq

/-- Error message of the NotFound failure required by the store contract. -/
def notFoundMsg : String := "account not found"

/-- Embedding of PostgresStorage.CreateAccount (storage.go lines 61-68):
insert a row; the serial column assigns the identifier to the stored copy
without populating it back on the argument. -/
def SpecStore.CreateAccount (st : SpecStore) (a : Account) : SpecStore :=
  SpecStore.mk (st.nextId + 1) (st.rows ++ [{ a with ID := st.nextId }])

/-- Embedding of PostgresStorage.GetAccountByID (storage.go lines 74-76)
in state-passing form: the stub returns a nil account with a nil error for
every id, ignoring the table. -/
def SpecStore.GetAccountByID (_st : SpecStore) (id : Int) : Except String (Option Account) :=
  PostgresStorage.GetAccountByID id

/-- Embedding of PostgresStorage.DeleteAccount (storage.go lines 70-72) in
state-passing form: the no-op stub returns nil, leaving the table
unchanged. -/
def SpecStore.DeleteAccount (st : SpecStore) (_id : Int) : Except String SpecStore :=
  Except.ok st

/-- Embedding of PostgresStorage.GetAllAccounts (storage.go lines 82-97):
select all rows; an empty table yields an empty list, not an error. -/
def SpecStore.GetAllAccounts (st : SpecStore) : Except String (List Account) :=
  Except.ok st.rows

/-- Signature of a handler in the apiFunc shape: it may write a response and
update the store, or fail with an error that makeHTTPHandlerFunc converts
to a 400 envelope. -/
abbrev ApiFunc := Request → SpecStore → Except String (Response × SpecStore)

/-- Embedding of makeHTTPHandlerFunc (api.go lines 209-215): run the
handler; on a non-nil error write status 400 with the ApiError envelope
carrying exactly the error message. All error paths of the embedded
handlers occur before any store mutation, so the store is unchanged on
error. -/
def makeHTTPHandlerFunc (f : ApiFunc) (r : Request) (st : SpecStore) : Response × SpecStore :=
  match f r st with
  | Except.ok res => res
  | Except.error e => (WriteJSON 400 (RespBody.apiError e), st)

/-- Embedding of handleGetAllAccounts (api.go lines 53-59). -/
def handleGetAllAccounts (_r : Request) (st : SpecStore) : Except String (Response × SpecStore) :=
  match st.GetAllAccounts with
  | Except.error e => Except.error e
  | Except.ok accounts => Except.ok (WriteJSON 200 (RespBody.accountsBody accounts), st)

/-- Embedding of handleCreateAccount (api.go lines 84-104): decode the
create request, construct the account, persist it, issue (and log, not
return) a token, respond with the constructed account value, whose
identifier the store did not populate back. -/
def handleCreateAccount (secret : String) (gen ts : Int) (r : Request) (st : SpecStore) :
    Except String (Response × SpecStore) :=
  match r.body with
  | RequestBody.createReq fn ln =>
    let account := NewAccount fn ln gen ts
    let st' := st.CreateAccount account
    let _tokenString := createJWT secret account
    Except.ok (WriteJSON 200 (RespBody.accountBody (some account)), st')
  | _ => Except.error ("invalid request body")

/-- Embedding of handleAccount (api.go lines 42-51): verb dispatch on the
collection route, with the method-not-allowed error naming the verb. -/
def handleAccount (secret : String) (gen ts : Int) (r : Request) (st : SpecStore) :
    Except String (Response × SpecStore) :=
  if r.method = "GET" then handleGetAllAccounts r st
  else if r.method = "POST" then handleCreateAccount secret gen ts r st
  else Except.error ("method not allowed, " ++ r.method)

/-- Embedding of handleDeleteAccount (api.go lines 106-122): parse the id,
confirm existence via GetAccountByID, then delete. -/
def handleDeleteAccount (r : Request) (st : SpecStore) : Except String (Response × SpecStore) :=
  match getId r with
  | Except.error e => Except.error e
  | Except.ok id =>
    match st.GetAccountByID id with
    | Except.error e => Except.error ("error occured while deleting account details: " ++ e)
    | Except.ok _ =>
      match st.DeleteAccount id with
      | Except.error e => Except.error e
      | Except.ok st' => Except.ok (WriteJSON 200 (RespBody.deletedBody id), st')

/-- Embedding of handleAccountByID (api.go lines 61-82): GET fetches by id,
DELETE confirms existence then deletes, any other verb fails with the
method-not-allowed error naming the verb. -/
def handleAccountByID (r : Request) (st : SpecStore) : Except String (Response × SpecStore) :=
  if r.method = "GET" then
    match getId r with
    | Except.error e => Except.error e
    | Except.ok id =>
      match st.GetAccountByID id with
      | Except.error e => Except.error ("error occured while fetching account details: " ++ e)
      | Except.ok account => Except.ok (WriteJSON 200 (RespBody.accountBody account), st)
  else if r.method = "DELETE" then handleDeleteAccount r st
  else Except.error ("method not allowed, " ++ r.method)

/-- The protected single-resource route as wired in Run (api.go line 31):
withJWTAuth wrapping makeHTTPHandlerFunc of handleAccountByID, both the
middleware lookup and the handler reading the store state current at the
request. -/
def accountByIdRoute (secret : String) (st : SpecStore) (r : Request) : MWResult :=
  withJWTAuth (fun r2 => (makeHTTPHandlerFunc handleAccountByID r2 st).1)
    (st.GetAccountByID) secret r

/-! Sample values used by the witness theorems. -/

def sampleSecret : String := "s3cret"

def sampleStore : SpecStore := SpecStore.mk 1 []

def acctA : Account := Account.mk 3 ("Ada") ("Lovelace") 7 0 0

def acctB : Account := Account.mk 4 ("Grace") ("Hopper") 9 0 0

def storeWithA : Int → Except String (Option Account) := fun _ => Except.ok (some acctA)

def noTokenReq : Request := Request.mk ("GET") ("1") emptyHeaderToken RequestBody.emptyBody

def wrongTokenReq : Request := Request.mk ("GET") ("3") (createJWT sampleSecret acctB) RequestBody.emptyBody

/-! Theorems settling the claims. -/

/-- Helper shared by the denial-shape claims: whatever branch of the
middleware denies a request, the response it wrote is the permissionDenied
response. -/
theorem withJWTAuth_denied_resp (handlerFunc : Request → Response)
    (getAccountByID : Int → Except String (Option Account)) (secret : String)
    (r : Request) (resp : Response)
    (h : (withJWTAuth handlerFunc getAccountByID secret r).outcome = MWOutcome.denied resp) :
    resp = permissionDenied := by
  unfold withJWTAuth at h
  repeat' split at h
  all_goals simp_all

/-- C1: a request to the protected single-resource route that resolves to
account A but presents a token issued for account B with a different
account number is denied at the final comparison: the middleware returns
the uniform denial (so the wrapped handler is never invoked and no account
data is written), with the store lookup having run. -/
theorem token_for_other_account_denied
    (A B : Account) (handlerFunc : Request → Response)
    (getAccountByID : Int → Except String (Option Account))
    (secret : String) (r : Request) (idA : Int)
    (hpath : goAtoi r.pathId = some idA)
    (hres : getAccountByID idA = Except.ok (some A))
    (htok : r.xJwtToken = createJWT secret B)
    (hnum : B.Number ≠ A.Number) :
    withJWTAuth handlerFunc getAccountByID secret r =
      MWResult.mk (MWOutcome.denied permissionDenied) true := by
  simp [withJWTAuth, htok, createJWT, validateJWT, jwtKeyfunc, SigAlg.isHMAC, getId, hpath,
    hres, List.lookup, Ne.symm hnum]

/-- Witness for C1: account A with number 7, token issued for B with
number 9, store resolving id 3 to A. -/
theorem token_for_other_account_denied_witness :
    withJWTAuth (fun _ => permissionDenied) storeWithA sampleSecret wrongTokenReq =
      MWResult.mk (MWOutcome.denied permissionDenied) true :=
  token_for_other_account_denied acctA acctB (fun _ => permissionDenied) storeWithA
    sampleSecret wrongTokenReq 3 (by decide) rfl rfl (by decide)

/-- C3: a well-formed token whose header declares an algorithm outside the
HMAC family is rejected by validateJWT with the key-resolution error naming
the unexpected method, whatever its claims or signature, and a request
presenting it to the protected route is denied. -/
theorem non_hmac_algorithm_rejected
    (secret : String) (alg : SigAlg) (claims : List (String × ClaimValue))
    (signedWith : Option String) (halg : alg.isHMAC = false)
    (handlerFunc : Request → Response)
    (getAccountByID : Int → Except String (Option Account))
    (r : Request) (htok : r.xJwtToken = TokenString.wellFormed alg claims signedWith) :
    validateJWT secret (TokenString.wellFormed alg claims signedWith) =
      Except.error ("unexpected signing method: " ++ alg.algName) ∧
    withJWTAuth handlerFunc getAccountByID secret r =
      MWResult.mk (MWOutcome.denied permissionDenied) false := by
  have hv : validateJWT secret (TokenString.wellFormed alg claims signedWith) =
      Except.error ("unexpected signing method: " ++ alg.algName) := by
    simp [validateJWT, jwtKeyfunc, halg]
  exact ⟨hv, by simp [withJWTAuth, htok, hv]⟩

/-- Witness for C3: an RS256 token, correctly signed with the shared
secret and carrying a plausible claim set, is still rejected. -/
theorem non_hmac_algorithm_rejected_witness :
    validateJWT sampleSecret (TokenString.wellFormed SigAlg.RS256
        (("accountNumber", ClaimValue.num 7) :: []) (some sampleSecret)) =
      Except.error ("unexpected signing method: RS256") ∧
    withJWTAuth (fun _ => permissionDenied) storeWithA sampleSecret
        (Request.mk ("GET") ("3") (TokenString.wellFormed SigAlg.RS256
          (("accountNumber", ClaimValue.num 7) :: []) (some sampleSecret)) RequestBody.emptyBody) =
      MWResult.mk (MWOutcome.denied permissionDenied) false :=
  non_hmac_algorithm_rejected sampleSecret SigAlg.RS256
    (("accountNumber", ClaimValue.num 7) :: []) (some sampleSecret) (by decide)
    (fun _ => permissionDenied) storeWithA
    (Request.mk ("GET") ("3") (TokenString.wellFormed SigAlg.RS256
      (("accountNumber", ClaimValue.num 7) :: []) (some sampleSecret)) RequestBody.emptyBody) rfl

/-- C4: a request whose x-jwt-token header is absent or empty is denied at
the token-validation step: the middleware returns the uniform denial with
storeQueried false, so the wrapped handler is never invoked and not even
the account-resolution lookup ran. -/
theorem missing_token_denied_before_store
    (handlerFunc : Request → Response)
    (getAccountByID : Int → Except String (Option Account))
    (secret : String) (r : Request)
    (h : r.xJwtToken = emptyHeaderToken) :
    withJWTAuth handlerFunc getAccountByID secret r =
      MWResult.mk (MWOutcome.denied permissionDenied) false := by
  simp [withJWTAuth, h, emptyHeaderToken, validateJWT]

/-- Witness for C4 at a concrete request with no token header. -/
theorem missing_token_denied_before_store_witness :
    withJWTAuth (fun _ => permissionDenied) storeWithA sampleSecret noTokenReq =
      MWResult.mk (MWOutcome.denied permissionDenied) false :=
  missing_token_denied_before_store (fun _ => permissionDenied) storeWithA sampleSecret
    noTokenReq rfl

/-- C5: every denial branch of the middleware writes the same uniform body,
the ApiError value permission denied; the body never indicates which step
denied. -/
theorem denial_body_uniform
    (handlerFunc : Request → Response)
    (getAccountByID : Int → Except String (Option Account))
    (secret : String) (r : Request) (resp : Response)
    (h : (withJWTAuth handlerFunc getAccountByID secret r).outcome = MWOutcome.denied resp) :
    resp = permissionDenied ∧ resp.body = RespBody.apiError ("permission denied") := by
  have he := withJWTAuth_denied_resp handlerFunc getAccountByID secret r resp h
  exact ⟨he, by rw [he] ; rfl⟩

/-- Witness for C5 at a concrete denied request (missing token). -/
theorem denial_body_uniform_witness :
    permissionDenied = permissionDenied ∧
    permissionDenied.body = RespBody.apiError ("permission denied") :=
  denial_body_uniform (fun _ => permissionDenied) storeWithA sampleSecret noTokenReq
    permissionDenied (by decide)

/-- C6: any non-nil handler error, whatever its kind, is converted by
makeHTTPHandlerFunc into a status 400 response whose body is the ApiError
envelope carrying exactly the error message. -/
theorem handler_error_uniform_400 (f : ApiFunc) (r : Request) (st : SpecStore) (e : String)
    (h : f r st = Except.error e) :
    makeHTTPHandlerFunc f r st = (WriteJSON 400 (RespBody.apiError e), st) := by
  simp [makeHTTPHandlerFunc, h]

/-- Witness for C6 at a concrete failing handler. -/
theorem handler_error_uniform_400_witness :
    makeHTTPHandlerFunc (fun _ _ => Except.error ("boom")) noTokenReq sampleStore =
      (WriteJSON 400 (RespBody.apiError ("boom")), sampleStore) :=
  handler_error_uniform_400 (fun _ _ => Except.error ("boom")) noTokenReq sampleStore
    ("boom") rfl

/-- C7 evaluation of the reference store at the failing input: DeleteAccount
is a no-op success and a subsequent GetAccountByID for the same id returns
a nil account with a nil error, not the NotFound failure the contract and
the claim require. -/
theorem postgres_get_after_delete_not_notfound :
    PostgresStorage.DeleteAccount 1 = Except.ok () ∧
    PostgresStorage.GetAccountByID 1 = Except.ok none ∧
    PostgresStorage.GetAccountByID 1 ≠ Except.error notFoundMsg := by
  refine ⟨rfl, rfl, ?_⟩
  simp [PostgresStorage.GetAccountByID]

/-- C8: any verb other than GET or POST on the collection route, and any
verb other than GET or DELETE on the single-resource route, fails with the
method-not-allowed error whose message ends with the rejected verb name. -/
theorem unsupported_verb_method_not_allowed
    (secret : String) (gen ts : Int) (r1 r2 : Request) (st1 st2 : SpecStore)
    (h1 : r1.method ≠ "GET") (h2 : r1.method ≠ "POST")
    (h3 : r2.method ≠ "GET") (h4 : r2.method ≠ "DELETE") :
    handleAccount secret gen ts r1 st1 = Except.error ("method not allowed, " ++ r1.method) ∧
    handleAccountByID r2 st2 = Except.error ("method not allowed, " ++ r2.method) := by
  constructor
  · simp [handleAccount, h1, h2]
  · simp [handleAccountByID, h3, h4]

/-- Witness for C8: PUT on the collection route and PATCH on the
single-resource route. -/
theorem unsupported_verb_method_not_allowed_witness :
    handleAccount sampleSecret 7 0 (Request.mk ("PUT") ("1") emptyHeaderToken RequestBody.emptyBody) sampleStore =
      Except.error ("method not allowed, PUT") ∧
    handleAccountByID (Request.mk ("PATCH") ("1") emptyHeaderToken RequestBody.emptyBody) sampleStore =
      Except.error ("method not allowed, PATCH") :=
  unsupported_verb_method_not_allowed sampleSecret 7 0
    (Request.mk ("PUT") ("1") emptyHeaderToken RequestBody.emptyBody)
    (Request.mk ("PATCH") ("1") emptyHeaderToken RequestBody.emptyBody)
    sampleStore sampleStore (by decide) (by decide) (by decide) (by decide)

/-- C9: every denial response of the middleware is written with HTTP
status 200, the same status as a successful response, so status alone
cannot distinguish denial from success on the protected route. -/
theorem denial_status_200
    (handlerFunc : Request → Response)
    (getAccountByID : Int → Except String (Option Account))
    (secret : String) (r : Request) (resp : Response)
    (h : (withJWTAuth handlerFunc getAccountByID secret r).outcome = MWOutcome.denied resp) :
    resp.status = 200 := by
  have he := withJWTAuth_denied_resp handlerFunc getAccountByID secret r resp h
  rw [he] ; rfl

/-- Witness for C9 at a concrete denied request (missing token). -/
theorem denial_status_200_witness : permissionDenied.status = 200 :=
  denial_status_200 (fun _ => permissionDenied) storeWithA sampleSecret noTokenReq
    permissionDenied (by decide)

/-- C10: the final comparison of the middleware is partial. With the
reference GetAccountByID stub, which returns a nil account with a nil
error, a request carrying any validly issued token panics on the nil
pointer dereference; with a store resolving an account but a validated
token lacking the accountNumber claim, the type assertion to float64
panics. Neither case is a denial. -/
theorem middleware_panics_on_nil_account_or_bad_claim
    (handlerFunc : Request → Response) (secret : String)
    (r1 r2 : Request) (id1 id2 : Int) (A acct : Account)
    (getById2 : Int → Except String (Option Account))
    (hpath1 : goAtoi r1.pathId = some id1)
    (htok1 : r1.xJwtToken = createJWT secret A)
    (hpath2 : goAtoi r2.pathId = some id2)
    (htok2 : r2.xJwtToken = TokenString.wellFormed SigAlg.HS256 [] (some secret))
    (hres2 : getById2 id2 = Except.ok (some acct)) :
    withJWTAuth handlerFunc PostgresStorage.GetAccountByID secret r1 =
      MWResult.mk (MWOutcome.panicked nilDerefPanic) true ∧
    withJWTAuth handlerFunc getById2 secret r2 =
      MWResult.mk (MWOutcome.panicked typeAssertPanic) true := by
  constructor
  · simp [withJWTAuth, htok1, createJWT, validateJWT, jwtKeyfunc, SigAlg.isHMAC, getId,
      hpath1, PostgresStorage.GetAccountByID]
  · simp [withJWTAuth, htok2, validateJWT, jwtKeyfunc, SigAlg.isHMAC, getId, hpath2,
      hres2, List.lookup]

/-- Witness for C10: a token issued for account A against the reference
stub store, and a claimless HS256 token against a store resolving A. -/
theorem middleware_panics_witness :
    withJWTAuth (fun _ => permissionDenied) PostgresStorage.GetAccountByID sampleSecret
        (Request.mk ("GET") ("5") (createJWT sampleSecret acctA) RequestBody.emptyBody) =
      MWResult.mk (MWOutcome.panicked nilDerefPanic) true ∧
    withJWTAuth (fun _ => permissionDenied) storeWithA sampleSecret
        (Request.mk ("GET") ("3") (TokenString.wellFormed SigAlg.HS256 [] (some sampleSecret)) RequestBody.emptyBody) =
      MWResult.mk (MWOutcome.panicked typeAssertPanic) true :=
  middleware_panics_on_nil_account_or_bad_claim (fun _ => permissionDenied) sampleSecret
    (Request.mk ("GET") ("5") (createJWT sampleSecret acctA) RequestBody.emptyBody)
    (Request.mk ("GET") ("3") (TokenString.wellFormed SigAlg.HS256 [] (some sampleSecret)) RequestBody.emptyBody)
    5 3 acctA acctA storeWithA (by decide) rfl (by decide) rfl rfl

/-- Account created in the C2 scenario: Ada Lovelace with generated
number 7 and timestamp 0. -/
def adaAccount : Account := NewAccount ("Ada") ("Lovelace") 7 0

/-- Table state after creating that account on an empty store whose serial
counter starts at 1, as the collection-route POST leaves it. -/
def storeAfterCreate : SpecStore :=
  SpecStore.CreateAccount (SpecStore.mk 1 []) adaAccount

/-- Subsequent protected GET for the created account at its assigned
identifier, presenting the token issued for it at creation. -/
def adaGetReq : Request :=
  Request.mk ("GET") ("1") (createJWT sampleSecret adaAccount) RequestBody.emptyBody

/-- C2 evaluation at the failing input: after the collection-route POST
creates the account, the protected GET at its identifier with the token
issued for it runs against the repository storage, whose GetAccountByID
stub returns a nil account with a nil error; the middleware therefore
panics on the nil dereference, and in particular never produces the
claimed 200 response carrying the created account. -/
theorem create_then_get_own_token_panics :
    accountByIdRoute sampleSecret storeAfterCreate adaGetReq =
      MWResult.mk (MWOutcome.panicked nilDerefPanic) true ∧
    accountByIdRoute sampleSecret storeAfterCreate adaGetReq ≠
      MWResult.mk (MWOutcome.passed (WriteJSON 200 (RespBody.accountBody
        (some ({ adaAccount with ID := 1 }))))) true := by
  constructor
  · rfl
  · decide
